import Mathlib

/-!
Verification development for the MinerU API client
(src/summeryanyfile/core/mineru_api_client.py).

The client submits a PDF (local bytes or URL) to a remote conversion
service, polls the task until a terminal state, and fetches the result,
unpacking a zip archive when the artifact is delivered as one.

Shallow embedding conventions:
- file bytes are `List Nat` with every element `< 256`;
- the filesystem, the HTTP layer and the zip library are oracle
  functions supplied as parameters (a `none` result models a raised
  exception at that boundary);
- Python falsy-string tests (`if not x`, `x or y`) are modelled on
  `Option String` by `optTruthy` / `pyOrStr`;
- raised exceptions become explicit error constructors, and the network
  interactions a function performs are returned as an event trace.
-/

deriving instance DecidableEq for Except

namespace Mineru

/-! ### Base64, modelling Python's `base64.b64encode` (standard alphabet) -/

def b64Alphabet : List Char :=
  "ABCDEFGHIJKLMNOPQRSTUVWXYZabcdefghijklmnopqrstuvwxyz0123456789+/".toList

def sextetChar (n : Nat) : Char := b64Alphabet.getD n 'A'

def charSextet (c : Char) : Option Nat := b64Alphabet.findIdx? (fun x => x = c)

/-- Standard base64 encoding of a byte list, with `=` padding, as produced
by `base64.b64encode(file_content)` in `create_task_from_file`. -/
def b64encode : List Nat → List Char
  | [] => []
  | [a] => [sextetChar (a / 4), sextetChar (a % 4 * 16), '=', '=']
  | [a, b] =>
    [sextetChar (a / 4), sextetChar (a % 4 * 16 + b / 16), sextetChar (b % 16 * 4), '=']
  | a :: b :: c :: rest =>
    sextetChar ((a * 65536 + b * 256 + c) / 262144) ::
    sextetChar ((a * 65536 + b * 256 + c) / 4096 % 64) ::
    sextetChar ((a * 65536 + b * 256 + c) / 64 % 64) ::
    sextetChar ((a * 65536 + b * 256 + c) % 64) :: b64encode rest

/-- Standard base64 decoding (the inverse transport decoding the spec's
round-trip property refers to). -/
def b64decode : List Char → Option (List Nat)
  | [] => some []
  | c1 :: c2 :: c3 :: c4 :: rest =>
    if c3 = '=' ∧ c4 = '=' ∧ rest = [] then do
      let s1 ← charSextet c1
      let s2 ← charSextet c2
      pure [s1 * 4 + s2 / 16]
    else if c4 = '=' ∧ rest = [] then do
      let s1 ← charSextet c1
      let s2 ← charSextet c2
      let s3 ← charSextet c3
      pure [s1 * 4 + s2 / 16, s2 % 16 * 16 + s3 / 4]
    else do
      let s1 ← charSextet c1
      let s2 ← charSextet c2
      let s3 ← charSextet c3
      let s4 ← charSextet c4
      let tail ← b64decode rest
      pure ((s1 * 4 + s2 / 16) :: (s2 % 16 * 16 + s3 / 4) :: (s3 % 4 * 64 + s4) :: tail)
  | _ => none

theorem charSextet_sextetChar : ∀ k, k < 64 → charSextet (sextetChar k) = some k := by
  decide

theorem sextetChar_ne_pad : ∀ k, k < 64 → sextetChar k ≠ '=' := by
  decide

theorem b64_roundtrip : ∀ bs : List Nat, (∀ x ∈ bs, x < 256) →
    b64decode (b64encode bs) = some bs
  | [], _ => rfl
  | [a], h => by
    have ha : a < 256 := h a (by simp)
    have h1 := charSextet_sextetChar (a / 4) (by omega)
    have h2 := charSextet_sextetChar (a % 4 * 16) (by omega)
    simp [b64encode, b64decode, h1, h2]
    omega
  | [a, b], h => by
    have ha : a < 256 := h a (by simp)
    have hb : b < 256 := h b (by simp)
    have h1 := charSextet_sextetChar (a / 4) (by omega)
    have h2 := charSextet_sextetChar (a % 4 * 16 + b / 16) (by omega)
    have h3 := charSextet_sextetChar (b % 16 * 4) (by omega)
    have hne := sextetChar_ne_pad (b % 16 * 4) (by omega)
    simp [b64encode, b64decode, h1, h2, h3, hne]
    omega
  | a :: b :: c :: rest, h => by
    have ha : a < 256 := h a (by simp)
    have hb : b < 256 := h b (by simp)
    have hc : c < 256 := h c (by simp)
    have hrest : ∀ x ∈ rest, x < 256 := fun x hx => h x (by simp [hx])
    have ih := b64_roundtrip rest hrest
    have h1 := charSextet_sextetChar ((a * 65536 + b * 256 + c) / 262144) (by omega)
    have h2 := charSextet_sextetChar ((a * 65536 + b * 256 + c) / 4096 % 64) (by omega)
    have h3 := charSextet_sextetChar ((a * 65536 + b * 256 + c) / 64 % 64) (by omega)
    have h4 := charSextet_sextetChar ((a * 65536 + b * 256 + c) % 64) (by omega)
    have hne3 := sextetChar_ne_pad ((a * 65536 + b * 256 + c) / 64 % 64) (by omega)
    have hne4 := sextetChar_ne_pad ((a * 65536 + b * 256 + c) % 64) (by omega)
    simp [b64encode, b64decode, h1, h2, h3, h4, hne3, hne4, ih]
    omega

/-! ### UTF-8 decoding, modelling `bytes.decode("utf-8")` (strict errors) -/

/-- Strict UTF-8 decoding of a byte list to characters: rejects
continuation errors, overlong forms, surrogates and out-of-range code
points, like Python's `.decode("utf-8")`. -/
def utf8DecodeChars : List Nat → Option (List Char)
  | [] => some []
  | b :: rest =>
    if b < 128 then
      (utf8DecodeChars rest).map (fun cs => Char.ofNat b :: cs)
    else if 192 ≤ b ∧ b < 224 then
      match rest with
      | b2 :: rest2 =>
        if 128 ≤ b2 ∧ b2 < 192 then
          if 128 ≤ (b - 192) * 64 + (b2 - 128) then
            (utf8DecodeChars rest2).map
              (fun cs => Char.ofNat ((b - 192) * 64 + (b2 - 128)) :: cs)
          else none
        else none
      | [] => none
    else if 224 ≤ b ∧ b < 240 then
      match rest with
      | b2 :: b3 :: rest3 =>
        if (128 ≤ b2 ∧ b2 < 192) ∧ (128 ≤ b3 ∧ b3 < 192) then
          if 2048 ≤ (b - 224) * 4096 + (b2 - 128) * 64 + (b3 - 128) ∧
              ¬ (55296 ≤ (b - 224) * 4096 + (b2 - 128) * 64 + (b3 - 128) ∧
                 (b - 224) * 4096 + (b2 - 128) * 64 + (b3 - 128) < 57344) then
            (utf8DecodeChars rest3).map
              (fun cs => Char.ofNat ((b - 224) * 4096 + (b2 - 128) * 64 + (b3 - 128)) :: cs)
          else none
        else none
      | _ => none
    else if 240 ≤ b ∧ b < 245 then
      match rest with
      | b2 :: b3 :: b4 :: rest4 =>
        if (128 ≤ b2 ∧ b2 < 192) ∧ (128 ≤ b3 ∧ b3 < 192) ∧ (128 ≤ b4 ∧ b4 < 192) then
          if 65536 ≤ (b - 240) * 262144 + (b2 - 128) * 4096 + (b3 - 128) * 64 + (b4 - 128) ∧
              (b - 240) * 262144 + (b2 - 128) * 4096 + (b3 - 128) * 64 + (b4 - 128) < 1114112 then
            (utf8DecodeChars rest4).map
              (fun cs =>
                Char.ofNat
                  ((b - 240) * 262144 + (b2 - 128) * 4096 + (b3 - 128) * 64 + (b4 - 128)) :: cs)
          else none
        else none
      | _ => none
    else none

/-- UTF-8 decoding of a byte list to a string; `none` models a raised
`UnicodeDecodeError`. -/
def utf8Decode (bs : List Nat) : Option String :=
  (utf8DecodeChars bs).map (fun cs => String.mk cs)

/-! ### Python falsy-string helpers -/

/-- Truthiness of an optional string in Python: `None` and `""` are falsy. -/
def optTruthy : Option String → Bool
  | none => false
  | some s => if s = "" then false else true

/-- Python's `a or b` on optional strings (used for
`result.get("full_zip_url") or result.get("md_url")`). -/
def pyOrStr (a b : Option String) : Option String :=
  if optTruthy a then a else b

/-! ### Task submission (`create_task_from_file` / `extract_markdown` front end) -/

/-- The JSON request body built by `create_task_from_file` (file variant)
and `create_task_from_url` (url variant). -/
inductive Payload where
  | filePayload (file : String) (file_name : String)
      (is_ocr enable_formula enable_table : Bool) (language : String)
  | urlPayload (url : String)
      (is_ocr enable_formula enable_table : Bool) (language : String)
deriving DecidableEq

/-- Error taxonomy of the submission path, following the spec's names:
`inputError` covers the `FileNotFoundError` for a missing source file and
the `ValueError` for no source given; `configError` is the missing-API-key
`ValueError`; `remoteError` wraps transport and protocol failures. -/
inductive SubmitError where
  | inputError (msg : String)
  | configError (msg : String)
  | remoteError (msg : String)
deriving DecidableEq

/-- `Path(file_path).name`: the final path component, i.e. the characters
after the last `/`. -/
def pathName (p : String) : String :=
  String.mk ((p.toList.reverse.takeWhile (fun c => c ≠ '/')).reverse)

/-- `create_task_from_file` up to the network boundary: reads the file
through the filesystem oracle `fs` (`none` models a missing file) and
builds the base64 payload. -/
def createTaskFromFilePayload (fs : String → Option (List Nat)) (filePath : String)
    (enableOcr enableFormula enableTable : Bool) (language : String) :
    Except SubmitError Payload :=
  match fs filePath with
  | none => .error (.inputError ("文件不存在: " ++ filePath))
  | some content =>
    .ok (.filePayload (String.mk (b64encode content)) (pathName filePath)
      enableOcr enableFormula enableTable language)

/-- `create_task_from_url` payload construction. -/
def createTaskFromUrlPayload (pdfUrl : String)
    (enableOcr enableFormula enableTable : Bool) (language : String) : Payload :=
  .urlPayload pdfUrl enableOcr enableFormula enableTable language

/-- Response envelope of the Submit endpoint, with the fields
`_create_task` reads (`get` on a missing key is `none`). -/
structure CreateResp where
  code : Option Int
  msg : Option String
  task_id : Option String
deriving DecidableEq

/-- A network interaction performed by the submission path. -/
inductive SubmitEvent where
  | postEv (payload : Payload)
deriving DecidableEq

/-- `_create_task`: checks availability, posts the payload over the
network oracle (`Except.error` models a raised transport exception or a
non-2xx response) and validates the response envelope.  The list records
the POSTs actually issued. -/
def createTask (available : Bool) (post : Payload → Except String CreateResp)
    (payload : Payload) : List SubmitEvent × Except SubmitError String :=
  if ¬ available then
    ([], .error (.configError "MinerU API Key 未配置，请设置环境变量 MINERU_API_KEY"))
  else
    match post payload with
    | .error m => ([.postEv payload], .error (.remoteError ("MinerU API 调用失败: " ++ m)))
    | .ok resp =>
      if resp.code ≠ some 0 then
        ([.postEv payload], .error (.remoteError ("MinerU API 错误: " ++ resp.msg.getD "未知错误")))
      else if optTruthy resp.task_id = false then
        ([.postEv payload], .error (.remoteError "MinerU API 返回无效的任务 ID"))
      else ([.postEv payload], .ok (resp.task_id.getD ""))

/-- The submission phase of `extract_markdown` (everything before
`wait_for_result`): source-argument validation, payload construction and
task creation, with the network trace made explicit. -/
def extractMarkdownSubmit (fs : String → Option (List Nat)) (available : Bool)
    (post : Payload → Except String CreateResp)
    (filePath pdfUrl : Option String)
    (enableOcr enableFormula enableTable : Bool) (language : String) :
    List SubmitEvent × Except SubmitError String :=
  if optTruthy filePath = false ∧ optTruthy pdfUrl = false then
    ([], .error (.inputError "必须提供 file_path 或 pdf_url"))
  else if optTruthy filePath then
    match createTaskFromFilePayload fs (filePath.getD "")
        enableOcr enableFormula enableTable language with
    | .error e => ([], .error e)
    | .ok p => createTask available post p
  else
    createTask available post
      (createTaskFromUrlPayload (pdfUrl.getD "") enableOcr enableFormula enableTable language)

/-! ### Polling (`wait_for_result`) -/

/-- The `data` object of a Poll response, with the fields the client
reads (`get` on a missing key is `none`). -/
structure TaskData where
  state : Option String
  err_msg : Option String
  full_zip_url : Option String
  md_url : Option String
  markdown : Option String
deriving DecidableEq

/-- Outcome of one `get_task_result` call: either the wrapped transport
exception it raises, or the response envelope (`code`, `msg`, `data`). -/
inductive QueryOutcome where
  | transportError (msg : String)
  | ok (code : Option Int) (msg : Option String) (data : TaskData)
deriving DecidableEq

/-- An observable step of the polling loop: a status query (with its
ordinal) or a suspension of the given duration (`asyncio.sleep`). -/
inductive PollEvent where
  | queryEv (idx : Nat)
  | sleepEv (duration : Nat)
deriving DecidableEq

/-- How `wait_for_result` ends.  `done` carries the result data and the
elapsed time; `taskFailed` is the spec's `RemoteTaskError` (the
`ValueError` raised on state `"failed"`, carrying `err_msg`); `timeout`
carries the configured maximum wait; `apiError` / `transportFailure` are
the spec's `RemoteError`. -/
inductive PollOutcome where
  | done (data : TaskData) (elapsed : Nat)
  | apiError (msg : String)
  | taskFailed (msg : String)
  | timeout (maxWait : Nat)
  | transportFailure (msg : String)
deriving DecidableEq

/-- The loop body of `wait_for_result`.  Time is counted in discrete
time-units: each suspension advances `elapsed` by `pollInterval`, queries
are instantaneous.  `query n` is the outcome of the `n`-th status query.
`fuel` bounds the recursion; `none` means the bound was hit before the
loop ended. -/
def waitAux (query : Nat → QueryOutcome) (pollInterval maxWait : Nat) :
    Nat → Nat → Nat → Option (List PollEvent × PollOutcome)
  | 0, _, _ => none
  | fuel + 1, n, elapsed =>
    if maxWait < elapsed then some ([], .timeout maxWait)
    else
      match query n with
      | .transportError m => some ([.queryEv n], .transportFailure m)
      | .ok code msg d =>
        if code ≠ some 0 then some ([.queryEv n], .apiError (msg.getD "未知错误"))
        else if d.state = some "done" then some ([.queryEv n], .done d elapsed)
        else if d.state = some "failed" then
          some ([.queryEv n], .taskFailed (d.err_msg.getD "任务执行失败"))
        else
          (waitAux query pollInterval maxWait fuel (n + 1) (elapsed + pollInterval)).map
            (fun r => (.queryEv n :: .sleepEv pollInterval :: r.1, r.2))

/-- `wait_for_result`: start the loop at the first query with zero
elapsed time. -/
def waitForResult (query : Nat → QueryOutcome) (pollInterval maxWait fuel : Nat) :
    Option (List PollEvent × PollOutcome) :=
  waitAux query pollInterval maxWait fuel 0 0

/-- A status-query outcome that keeps the loop going: a successful
envelope whose state is neither terminal string. -/
def NonTerminalOutcome (o : QueryOutcome) : Prop :=
  ∃ msg d, o = .ok (some 0) msg d ∧ d.state ≠ some "done" ∧ d.state ≠ some "failed"

/-! ### Result fetching (`_download_markdown` and the tail of `extract_markdown`) -/

/-- `str.endswith(p)`: the final characters of `s` equal `p`. -/
def strEndsWith (s p : String) : Bool :=
  if p.toList.length ≤ s.toList.length then
    decide (s.toList.drop (s.toList.length - p.toList.length) = p.toList)
  else false

/-- Oracles for the artifact-fetch boundary: `fetch` is the fresh-client
GET (`none` models a transport error or a non-2xx response raised by
`raise_for_status`); `parseZip` is `zipfile.ZipFile` + `namelist` + `read`
(`none` models a corrupt archive); `text` is `response.text`. -/
structure FetchEnv where
  fetch : String → Option (List Nat)
  parseZip : List Nat → Option (List (String × List Nat))
  text : List Nat → String

/-- A network interaction performed by the fetch path. -/
inductive FetchEvent where
  | fetchEv (url : String)
deriving DecidableEq

/-- `_download_markdown`: fetch the URL; if it ends in `.zip`, return the
UTF-8 decoding of the first archive entry whose name ends in `.md` (empty
string when there is none); otherwise return the body as text.  Every
failure along the way is caught and yields `""`. -/
def downloadMarkdown (env : FetchEnv) (url : String) : List FetchEvent × String :=
  match env.fetch url with
  | none => ([.fetchEv url], "")
  | some body =>
    if strEndsWith url ".zip" then
      match env.parseZip body with
      | none => ([.fetchEv url], "")
      | some entries =>
        match entries.find? (fun e => strEndsWith e.fst ".md") with
        | none => ([.fetchEv url], "")
        | some entry => ([.fetchEv url], (utf8Decode entry.snd).getD "")
    else ([.fetchEv url], env.text body)

/-- `md_url = result.get("full_zip_url") or result.get("md_url")` followed
by the `if md_url:` truthiness test: the URL actually fetched, if any. -/
def chosenUrl (r : TaskData) : Option String :=
  let m := pyOrStr r.full_zip_url r.md_url
  if optTruthy m then m else none

/-- The result-extraction tail of `extract_markdown`: download when a
truthy URL is present, otherwise use the inline `markdown` field
(defaulting to the empty string). -/
def extractMarkdownContent (env : FetchEnv) (r : TaskData) : List FetchEvent × String :=
  match chosenUrl r with
  | some url => downloadMarkdown env url
  | none => ([], r.markdown.getD "")

/-! ### Concrete fixtures used to evaluate the theorems on closed inputs -/

/-- A filesystem holding one file, `doc.pdf`, with content `%PDF`. -/
def fsW : String → Option (List Nat) :=
  fun p => if p = "doc.pdf" then some [37, 80, 68, 70] else none

/-- A Submit endpoint that accepts every payload and returns task `t1`. -/
def postW : Payload → Except String CreateResp :=
  fun _ => .ok ⟨some 0, none, some "t1"⟩

/-- A task whose every status query reports `running`. -/
def queryR : Nat → QueryOutcome :=
  fun _ => .ok (some 0) none ⟨some "running", none, none, none, none⟩

/-- A task whose every status query reports the unrecognized state
`pending`. -/
def queryP : Nat → QueryOutcome :=
  fun _ => .ok (some 0) none ⟨some "pending", none, none, none, none⟩

/-- A task whose first status query reports `failed` with message
`bad scan`. -/
def queryF : Nat → QueryOutcome :=
  fun _ => .ok (some 0) none ⟨some "failed", some "bad scan", none, none, none⟩

/-- A task that reports `running` twice and then `done`. -/
def queryRRD : Nat → QueryOutcome :=
  fun n =>
    if n < 2 then .ok (some 0) none ⟨some "running", none, none, none, none⟩
    else .ok (some 0) none ⟨some "done", none, none, none, some "ok"⟩

/-- A fetch boundary with: a zip whose second entry is `report.md`
containing `Hello`; a zip with no `.md` entry; a raw text body `hi`; a
corrupt zip; a zip whose `.md` entry is invalid UTF-8; and an unreachable
URL. -/
def envW : FetchEnv where
  fetch := fun u =>
    if u = "http://h/a.zip" then some [1]
    else if u = "http://h/b.zip" then some [2]
    else if u = "http://h/raw.md" then some [10]
    else if u = "http://h/corrupt.zip" then some [3]
    else if u = "http://h/bad.zip" then some [4]
    else none
  parseZip := fun b =>
    if b = [1] then some [("img.png", [0]), ("report.md", [72, 101, 108, 108, 111])]
    else if b = [2] then some [("a.txt", [0])]
    else if b = [4] then some [("x.md", [255])]
    else none
  text := fun b => if b = [10] then "hi" else ""

/-! ### Helper lemmas about the polling loop -/

theorem waitAux_step (query : Nat → QueryOutcome) (pollInterval maxWait fuel n elapsed : Nat)
    (msg : Option String) (d : TaskData)
    (hel : ¬ maxWait < elapsed) (hq : query n = .ok (some 0) msg d)
    (hdone : d.state ≠ some "done") (hfail : d.state ≠ some "failed") :
    waitAux query pollInterval maxWait (fuel + 1) n elapsed =
      (waitAux query pollInterval maxWait fuel (n + 1) (elapsed + pollInterval)).map
        (fun r => (PollEvent.queryEv n :: PollEvent.sleepEv pollInterval :: r.1, r.2)) := by
  simp [waitAux, hel, hq, hdone, hfail]

theorem waitAux_timeout (query : Nat → QueryOutcome) (pollInterval maxWait fuel n elapsed : Nat)
    (hel : maxWait < elapsed) :
    waitAux query pollInterval maxWait (fuel + 1) n elapsed = some ([], .timeout maxWait) := by
  simp [waitAux, hel]

theorem waitAux_done (query : Nat → QueryOutcome) (pollInterval maxWait fuel n elapsed : Nat)
    (msg : Option String) (d : TaskData)
    (hel : ¬ maxWait < elapsed) (hq : query n = .ok (some 0) msg d)
    (hdone : d.state = some "done") :
    waitAux query pollInterval maxWait (fuel + 1) n elapsed =
      some ([.queryEv n], .done d elapsed) := by
  simp [waitAux, hel, hq, hdone]

/-! ### Claim theorems -/

/-- C7: for every byte sequence read from a valid local input file, the
submission payload's `file` field is the base64 text of those bytes, so
base64-decoding the field reproduces the original bytes exactly, and the
payload also carries the file name, the three boolean processing flags
and the language code. -/
theorem file_payload_base64_roundtrip (fs : String → Option (List Nat)) (path : String)
    (content : List Nat) (hfs : fs path = some content)
    (hbytes : ∀ x ∈ content, x < 256)
    (enableOcr enableFormula enableTable : Bool) (language : String) :
    createTaskFromFilePayload fs path enableOcr enableFormula enableTable language =
      .ok (.filePayload (String.mk (b64encode content)) (pathName path)
        enableOcr enableFormula enableTable language) ∧
    b64decode (b64encode content) = some content :=
  ⟨by simp [createTaskFromFilePayload, hfs], b64_roundtrip content hbytes⟩

theorem file_payload_base64_roundtrip_witness :
    createTaskFromFilePayload fsW "doc.pdf" true true true "ch" =
      .ok (.filePayload (String.mk (b64encode [37, 80, 68, 70])) (pathName "doc.pdf")
        true true true "ch") ∧
    b64decode (b64encode [37, 80, 68, 70]) = some [37, 80, 68, 70] ∧
    String.mk (b64encode [37, 80, 68, 70]) = "JVBERg==" :=
  have h := file_payload_base64_roundtrip fsW "doc.pdf" [37, 80, 68, 70] rfl
    (by decide) true true true "ch"
  ⟨h.1, h.2, by decide⟩

/-- C8: submitting with neither a file path nor a URL fails with
`InputError`, and submitting with a nonexistent file path fails with
`InputError`; in both cases the trace of POSTs is empty, so the remote
service is never contacted. -/
theorem submit_input_errors (fs : String → Option (List Nat)) (available : Bool)
    (post : Payload → Except String CreateResp)
    (enableOcr enableFormula enableTable : Bool) (language : String) :
    (∀ filePath pdfUrl : Option String,
      optTruthy filePath = false → optTruthy pdfUrl = false →
      extractMarkdownSubmit fs available post filePath pdfUrl
          enableOcr enableFormula enableTable language =
        ([], .error (.inputError "必须提供 file_path 或 pdf_url"))) ∧
    (∀ (path : String) (pdfUrl : Option String), path ≠ "" → fs path = none →
      extractMarkdownSubmit fs available post (some path) pdfUrl
          enableOcr enableFormula enableTable language =
        ([], .error (.inputError ("文件不存在: " ++ path)))) := by
  constructor
  · intro filePath pdfUrl h1 h2
    simp [extractMarkdownSubmit, h1, h2]
  · intro path pdfUrl hpath hfs
    simp [extractMarkdownSubmit, optTruthy, hpath, createTaskFromFilePayload, hfs]

theorem submit_input_errors_witness :
    extractMarkdownSubmit fsW true postW none none true true true "ch" =
      ([], .error (.inputError "必须提供 file_path 或 pdf_url")) ∧
    extractMarkdownSubmit fsW true postW (some "ghost.pdf") none true true true "ch" =
      ([], .error (.inputError "文件不存在: ghost.pdf")) :=
  have h := submit_input_errors fsW true postW true true true "ch"
  ⟨h.1 none none rfl rfl, h.2 "ghost.pdf" none (by decide) rfl⟩

/-- C9 counterexample: submitting with both a local file and a URL does
not fail with an input error — the code only raises when neither is
given.  On a concrete input with both present, submission proceeds with
the local file and succeeds, POSTing the file payload. -/
theorem submit_both_given_counterexample :
    extractMarkdownSubmit fsW true postW (some "doc.pdf") (some "http://e/x.pdf")
        true true true "ch" =
      ([.postEv (.filePayload (String.mk (b64encode [37, 80, 68, 70])) "doc.pdf"
          true true true "ch")], .ok "t1") := by decide

/-- C9 amended: submitting with both a local file and a URL proceeds with
the local file (the URL is ignored); no `InputError` is raised. -/
theorem submit_both_given_uses_file (fs : String → Option (List Nat)) (available : Bool)
    (post : Payload → Except String CreateResp)
    (path url : String) (content : List Nat)
    (hpath : path ≠ "") (hfs : fs path = some content)
    (enableOcr enableFormula enableTable : Bool) (language : String) :
    extractMarkdownSubmit fs available post (some path) (some url)
        enableOcr enableFormula enableTable language =
      createTask available post
        (.filePayload (String.mk (b64encode content)) (pathName path)
          enableOcr enableFormula enableTable language) := by
  simp [extractMarkdownSubmit, optTruthy, hpath, createTaskFromFilePayload, hfs]

theorem submit_both_given_uses_file_witness :
    extractMarkdownSubmit fsW true postW (some "doc.pdf") (some "http://e/x.pdf")
        true true true "ch" =
      createTask true postW
        (.filePayload (String.mk (b64encode [37, 80, 68, 70])) (pathName "doc.pdf")
          true true true "ch") :=
  submit_both_given_uses_file fsW true postW "doc.pdf" "http://e/x.pdf" [37, 80, 68, 70]
    (by decide) rfl true true true "ch"

/-- C3: with maximum wait 5 time-units and poll interval 3, a run whose
status queries never return a terminal state fails with `TimeoutError`
carrying the configured maximum, exactly after the second query and the
second suspension, i.e. once elapsed time reaches 6 and exceeds 5 — and
not before (the trace shows both earlier queries completed). -/
theorem wait_timeout_after_second_query (query : Nat → QueryOutcome) (fuel : Nat)
    (hq : ∀ n, NonTerminalOutcome (query n)) :
    waitForResult query 3 5 (fuel + 3) =
      some ([.queryEv 0, .sleepEv 3, .queryEv 1, .sleepEv 3], .timeout 5) := by
  obtain ⟨m0, d0, he0, hd0, hf0⟩ := hq 0
  obtain ⟨m1, d1, he1, hd1, hf1⟩ := hq 1
  have e3 : fuel + 3 = fuel + 2 + 1 := rfl
  have e2 : fuel + 2 = fuel + 1 + 1 := rfl
  simp [waitForResult, e3, e2, waitAux, he0, he1, hd0, hf0, hd1, hf1]

theorem wait_timeout_after_second_query_witness :
    waitForResult queryR 3 5 3 =
      some ([.queryEv 0, .sleepEv 3, .queryEv 1, .sleepEv 3], .timeout 5) :=
  wait_timeout_after_second_query queryR 0
    (fun _ => ⟨none, ⟨some "running", none, none, none, none⟩, rfl, by decide, by decide⟩)

/-- C4: a run whose first status query returns `failed` with message
`bad scan` fails immediately with `RemoteTaskError` (modelled as
`taskFailed`) carrying `bad scan`: the trace holds the single query and
no suspension. -/
theorem wait_failed_immediately (query : Nat → QueryOutcome) (pollInterval maxWait fuel : Nat)
    (msg : Option String) (d : TaskData)
    (hq : query 0 = .ok (some 0) msg d) (hstate : d.state = some "failed")
    (herr : d.err_msg = some "bad scan") :
    waitForResult query pollInterval maxWait (fuel + 1) =
      some ([.queryEv 0], .taskFailed "bad scan") := by
  have hA : ¬ maxWait < 0 := by omega
  simp [waitForResult, waitAux, hA, hq, hstate, herr]

theorem wait_failed_immediately_witness :
    waitForResult queryF 3 300 1 = some ([.queryEv 0], .taskFailed "bad scan") :=
  wait_failed_immediately queryF 3 300 0 none
    ⟨some "failed", some "bad scan", none, none, none⟩ rfl rfl rfl

/-- C5: a run whose status sequence is [running, running, done] returns
the `done` result after exactly two suspensions of the poll interval
(one after each non-terminal query, none after the terminal one), with
elapsed time the sum of the two wait periods. -/
theorem wait_two_sleeps_then_done (query : Nat → QueryOutcome)
    (pollInterval maxWait fuel : Nat) (m0 m1 m2 : Option String) (d0 d1 d2 : TaskData)
    (hmax : pollInterval + pollInterval ≤ maxWait)
    (h0 : query 0 = .ok (some 0) m0 d0)
    (h0d : d0.state ≠ some "done") (h0f : d0.state ≠ some "failed")
    (h1 : query 1 = .ok (some 0) m1 d1)
    (h1d : d1.state ≠ some "done") (h1f : d1.state ≠ some "failed")
    (h2 : query 2 = .ok (some 0) m2 d2) (h2d : d2.state = some "done") :
    waitForResult query pollInterval maxWait (fuel + 3) =
      some ([.queryEv 0, .sleepEv pollInterval, .queryEv 1, .sleepEv pollInterval,
          .queryEv 2],
        .done d2 (pollInterval + pollInterval)) := by
  have e3 : fuel + 3 = fuel + 2 + 1 := rfl
  have e2 : fuel + 2 = fuel + 1 + 1 := rfl
  have hA : ¬ maxWait < 0 := by omega
  have hB : ¬ maxWait < pollInterval := by omega
  have hC : ¬ maxWait < pollInterval + pollInterval := by omega
  simp [waitForResult, e3, e2, waitAux, h0, h1, h2, h0d, h0f, h1d, h1f, h2d, hA, hB, hC]

theorem wait_two_sleeps_then_done_witness :
    waitForResult queryRRD 3 300 3 =
      some ([.queryEv 0, .sleepEv 3, .queryEv 1, .sleepEv 3, .queryEv 2],
        .done ⟨some "done", none, none, none, some "ok"⟩ (3 + 3)) :=
  wait_two_sleeps_then_done queryRRD 3 300 0 none none none
    ⟨some "running", none, none, none, none⟩ ⟨some "running", none, none, none, none⟩
    ⟨some "done", none, none, none, some "ok"⟩
    (by omega) rfl (by decide) (by decide) rfl (by decide) (by decide) rfl rfl

/-- C6: within the deadline, a status query returning any state other
than the terminal strings `done` and `failed` (including unrecognized
values and a missing state) never terminates polling: the loop records
the query, suspends for the poll interval and continues with the next
query, rather than returning or raising. -/
theorem unrecognized_state_polls_again (query : Nat → QueryOutcome)
    (pollInterval maxWait fuel n elapsed : Nat) (msg : Option String) (d : TaskData)
    (hel : ¬ maxWait < elapsed) (hq : query n = .ok (some 0) msg d)
    (hdone : d.state ≠ some "done") (hfail : d.state ≠ some "failed") :
    waitAux query pollInterval maxWait (fuel + 1) n elapsed =
      (waitAux query pollInterval maxWait fuel (n + 1) (elapsed + pollInterval)).map
        (fun r => (PollEvent.queryEv n :: PollEvent.sleepEv pollInterval :: r.1, r.2)) :=
  waitAux_step query pollInterval maxWait fuel n elapsed msg d hel hq hdone hfail

theorem unrecognized_state_polls_again_witness :
    waitAux queryP 3 300 1 0 0 =
      (waitAux queryP 3 300 0 1 (0 + 3)).map
        (fun r => (PollEvent.queryEv 0 :: PollEvent.sleepEv 3 :: r.1, r.2)) :=
  unrecognized_state_polls_again queryP 3 300 0 0 0 none
    ⟨some "pending", none, none, none, none⟩ (by omega) rfl (by decide) (by decide)

/-- C1: for every `done` result locator — with no truthy download URL the
embedded inline content is returned unmodified with an empty fetch trace;
with a URL ending in `.zip` the content is the UTF-8 decoding of the
first archive entry whose name ends in `.md`, and the empty string when
no entry ends in `.md`; with a non-`.zip` URL the raw fetched body
decoded as text is returned. -/
theorem result_locator_extraction (env : FetchEnv) :
    (∀ (r : TaskData) (m : String),
      optTruthy r.full_zip_url = false → optTruthy r.md_url = false →
      r.markdown = some m →
      extractMarkdownContent env r = ([], m)) ∧
    (∀ (r : TaskData) (url : String) (body : List Nat)
        (entries : List (String × List Nat)) (name : String) (bs : List Nat) (s : String),
      chosenUrl r = some url → strEndsWith url ".zip" = true →
      env.fetch url = some body → env.parseZip body = some entries →
      entries.find? (fun e => strEndsWith e.fst ".md") = some (name, bs) →
      utf8Decode bs = some s →
      extractMarkdownContent env r = ([.fetchEv url], s)) ∧
    (∀ (r : TaskData) (url : String) (body : List Nat)
        (entries : List (String × List Nat)),
      chosenUrl r = some url → strEndsWith url ".zip" = true →
      env.fetch url = some body → env.parseZip body = some entries →
      entries.find? (fun e => strEndsWith e.fst ".md") = none →
      extractMarkdownContent env r = ([.fetchEv url], "")) ∧
    (∀ (r : TaskData) (url : String) (body : List Nat),
      chosenUrl r = some url → strEndsWith url ".zip" = false →
      env.fetch url = some body →
      extractMarkdownContent env r = ([.fetchEv url], env.text body)) := by
  refine ⟨?_, ?_, ?_, ?_⟩
  · intro r m h1 h2 h3
    simp [extractMarkdownContent, chosenUrl, pyOrStr, h1, h2, h3]
  · intro r url body entries name bs s hc hz hf hp hfind hdec
    simp [extractMarkdownContent, hc, downloadMarkdown, hf, hz, hp, hfind, hdec]
  · intro r url body entries hc hz hf hp hfind
    simp [extractMarkdownContent, hc, downloadMarkdown, hf, hz, hp, hfind]
  · intro r url body hc hz hf
    simp [extractMarkdownContent, hc, downloadMarkdown, hf, hz]

theorem result_locator_extraction_witness :
    extractMarkdownContent envW ⟨some "done", none, none, none, some "inline text"⟩ =
      ([], "inline text") ∧
    extractMarkdownContent envW ⟨some "done", none, some "http://h/a.zip", none, none⟩ =
      ([.fetchEv "http://h/a.zip"], "Hello") ∧
    extractMarkdownContent envW ⟨some "done", none, some "http://h/b.zip", none, none⟩ =
      ([.fetchEv "http://h/b.zip"], "") ∧
    extractMarkdownContent envW ⟨some "done", none, some "http://h/raw.md", none, none⟩ =
      ([.fetchEv "http://h/raw.md"], "hi") :=
  ⟨(result_locator_extraction envW).1 _ "inline text" rfl rfl rfl,
   (result_locator_extraction envW).2.1 _ "http://h/a.zip" [1]
     [("img.png", [0]), ("report.md", [72, 101, 108, 108, 111])] "report.md"
     [72, 101, 108, 108, 111] "Hello" (by decide) (by decide) (by decide) (by decide)
     (by decide) (by decide),
   (result_locator_extraction envW).2.2.1 _ "http://h/b.zip" [2] [("a.txt", [0])]
     (by decide) (by decide) (by decide) (by decide) (by decide),
   ((result_locator_extraction envW).2.2.2 _ "http://h/raw.md" [10]
     (by decide) (by decide) (by decide)).trans (by decide)⟩

/-- C2: every modelled failure of the URL-based result fetch — transport
error or non-2xx response (`fetch` raises), corrupt archive (`parseZip`
raises), undecodable bytes in the selected entry (`decode` raises) — is
caught and yields the empty-content result; `downloadMarkdown` is a total
function, so the fetch step never propagates an exception. -/
theorem fetch_failures_degrade_to_empty (env : FetchEnv) :
    (∀ url : String, env.fetch url = none →
      downloadMarkdown env url = ([.fetchEv url], "")) ∧
    (∀ (url : String) (body : List Nat),
      strEndsWith url ".zip" = true → env.fetch url = some body →
      env.parseZip body = none →
      downloadMarkdown env url = ([.fetchEv url], "")) ∧
    (∀ (url : String) (body : List Nat) (entries : List (String × List Nat))
        (name : String) (bs : List Nat),
      strEndsWith url ".zip" = true → env.fetch url = some body →
      env.parseZip body = some entries →
      entries.find? (fun e => strEndsWith e.fst ".md") = some (name, bs) →
      utf8Decode bs = none →
      downloadMarkdown env url = ([.fetchEv url], "")) := by
  refine ⟨?_, ?_, ?_⟩
  · intro url hf
    simp [downloadMarkdown, hf]
  · intro url body hz hf hp
    simp [downloadMarkdown, hf, hz, hp]
  · intro url body entries name bs hz hf hp hfind hdec
    simp [downloadMarkdown, hf, hz, hp, hfind, hdec]

theorem fetch_failures_degrade_to_empty_witness :
    downloadMarkdown envW "http://h/missing.zip" = ([.fetchEv "http://h/missing.zip"], "") ∧
    downloadMarkdown envW "http://h/corrupt.zip" = ([.fetchEv "http://h/corrupt.zip"], "") ∧
    downloadMarkdown envW "http://h/bad.zip" = ([.fetchEv "http://h/bad.zip"], "") :=
  ⟨(fetch_failures_degrade_to_empty envW).1 "http://h/missing.zip" (by decide),
   (fetch_failures_degrade_to_empty envW).2.1 "http://h/corrupt.zip" [3]
     (by decide) (by decide) (by decide),
   (fetch_failures_degrade_to_empty envW).2.2 "http://h/bad.zip" [4] [("x.md", [255])]
     "x.md" [255] (by decide) (by decide) (by decide) (by decide) (by decide)⟩

/-- C10: when a `done` result carries a truthy `full_zip_url` it is the
URL fetched regardless of `md_url`; `md_url` is fetched only when
`full_zip_url` is absent or empty; and when both are absent or empty the
inline `markdown` field, defaulting to the empty string, is used. -/
theorem zip_url_precedence (env : FetchEnv) :
    (∀ (r : TaskData) (u : String), r.full_zip_url = some u → u ≠ "" →
      extractMarkdownContent env r = downloadMarkdown env u) ∧
    (∀ (r : TaskData) (u : String), optTruthy r.full_zip_url = false →
      r.md_url = some u → u ≠ "" →
      extractMarkdownContent env r = downloadMarkdown env u) ∧
    (∀ r : TaskData, optTruthy r.full_zip_url = false → optTruthy r.md_url = false →
      extractMarkdownContent env r = ([], r.markdown.getD "")) := by
  refine ⟨?_, ?_, ?_⟩
  · intro r u hfull hne
    have hu : optTruthy (some u) = true := by simp [optTruthy, hne]
    simp [extractMarkdownContent, chosenUrl, pyOrStr, hfull, hu]
  · intro r u hfull hmd hne
    have hu : optTruthy (some u) = true := by simp [optTruthy, hne]
    simp [extractMarkdownContent, chosenUrl, pyOrStr, hfull, hmd, hu]
  · intro r h1 h2
    simp [extractMarkdownContent, chosenUrl, pyOrStr, h1, h2]

theorem zip_url_precedence_witness :
    extractMarkdownContent envW
        ⟨some "done", none, some "http://h/a.zip", some "http://h/raw.md", some "x"⟩ =
      downloadMarkdown envW "http://h/a.zip" ∧
    extractMarkdownContent envW
        ⟨some "done", none, some "", some "http://h/raw.md", some "x"⟩ =
      downloadMarkdown envW "http://h/raw.md" ∧
    extractMarkdownContent envW ⟨some "done", none, some "", none, none⟩ = ([], "") :=
  ⟨(zip_url_precedence envW).1 _ "http://h/a.zip" rfl (by decide),
   (zip_url_precedence envW).2.1 _ "http://h/raw.md" rfl rfl (by decide),
   (zip_url_precedence envW).2.2 _ rfl rfl⟩

end Mineru
